import Mathlib

/-!
Shallow embedding of `src/main.py` (a FastAPI bookstore / location-log
service) and proofs about its endpoint handlers.

Modelling conventions:
* Python floats (`price`, `time`, `lat`, `lng`) are embedded as `ℚ`.
* `uuid4().hex` is nondeterministic; each call site is embedded as an
  explicit `gen : String` parameter (the value the generator produced).
* The global mutable state (`BOOKS`, `LOCATIONS`) together with the two
  backing JSON files is a `ServerState`; each endpoint is a function from
  state (plus request data) to updated state and an HTTP-level result.
* `BOOKS` and `LOCATIONS` hold plain JSON dicts: the startup code loads
  them with `json.load`, and the add endpoints append `jsonable_encoder`
  output, which is a `dict`.  A dict's keys are *not* Python attributes,
  so the attribute access `book.book_id` in `get_book` raises
  `AttributeError`; `dictAttrBookId` embeds that access.
* FastAPI surfaces an uncaught Python exception as an HTTP 500; we keep
  the exception itself (`HResult.pyException`).
* Pydantic validation (`genre: Literal["fiction", "non-fiction"]`) runs
  before the handler body; on failure FastAPI answers 422 and the handler
  never executes, so the state is unchanged.
* `datetime.fromtimestamp(s)` denotes the instant `s` seconds since the
  epoch (rendered in the local timezone); we embed the instant it
  denotes (`DateTime.seconds`).  `isoformat()` is a human-readable
  rendering of that instant; the claims are stated about the underlying
  instant carried by the rendered value.
* Python `sorted(..., reverse=True)` is a stable sort; we embed it as
  `List.insertionSort` with the non-strict descending relation, which is
  sorted, a permutation, and stable (proved below), hence produces the
  same list as any stable descending sort.
-/

namespace PDI

/-- Python exceptions that the embedded handlers can raise. -/
inductive PyErr where
  | attributeError
  | indexError
deriving DecidableEq, Repr

/-- Outcome of one HTTP request: a value, a structured `HTTPException`
(status code plus detail message), or an uncaught Python exception
(surfaced by the framework as a 500). -/
inductive HResult (α : Type) where
  | ok (a : α)
  | httpError (status : Nat) (detail : String)
  | pyException (e : PyErr)
deriving DecidableEq, Repr

/-- A book record as stored in `BOOKS` and in `books.json`: the JSON
dict produced by `jsonable_encoder` on a validated `Book`. -/
structure StoredBook where
  name : String
  genre : String
  price : ℚ
  book_id : String
deriving DecidableEq, Repr

/-- The request body of `POST /add-book` after JSON parsing, before
pydantic validation.  A client may or may not send a `book_id`. -/
structure BookIn where
  name : String
  genre : String
  price : ℚ
  book_id : Option String
deriving DecidableEq, Repr

/-- A location record (`time` is caller-supplied milliseconds since the
epoch), as stored in `LOCATIONS` and in `locations.json`. -/
structure LocRec where
  time : ℚ
  lat : ℚ
  lng : ℚ
deriving DecidableEq, Repr

/-- A Python `datetime` value, identified by the instant it denotes:
seconds since the epoch.  (The local timezone only affects the textual
rendering, not the instant.) -/
structure DateTime where
  seconds : ℚ
deriving DecidableEq, Repr

/-- `datetime.fromtimestamp(s)`: the datetime denoting the instant `s`
seconds since the epoch. -/
def DateTime.fromtimestamp (s : ℚ) : DateTime := ⟨s⟩

/-- An element of the `GET /get-locations` response: the stored record
with its `time` field replaced by the converted timestamp.  The `time`
field holds the datetime whose `isoformat()` rendering the endpoint
returns; its `seconds` is the instant underlying that string. -/
structure ConvLocation where
  time : DateTime
  lat : ℚ
  lng : ℚ
deriving DecidableEq, Repr

/-- The process state: the two in-memory collections and the contents of
the two backing JSON files (each file holds one JSON array). -/
structure ServerState where
  books : List StoredBook
  booksFile : List StoredBook
  locations : List LocRec
  locationsFile : List LocRec
deriving DecidableEq, Repr

/-- Pydantic validation of the `genre` field:
`genre: Literal["fiction", "non-fiction"]`. -/
def validGenre (g : String) : Bool :=
  g == "fiction" || g == "non-fiction"

/-- `POST /add-book`.  `gen` is the value `uuid4().hex` produced during
this call.  On validation failure FastAPI answers 422 and the handler
body never runs.  Otherwise the handler overwrites `book.book_id` with
`gen`, appends the encoded book to `BOOKS`, rewrites `books.json` with
the whole collection, and returns the generated identifier. -/
def add_book (s : ServerState) (req : BookIn) (gen : String) :
    ServerState × HResult String :=
  if validGenre req.genre then
    let json_book : StoredBook :=
      { name := req.name, genre := req.genre, price := req.price, book_id := gen }
    let nb := s.books ++ [json_book]
    ({ s with books := nb, booksFile := nb }, .ok gen)
  else
    (s, .httpError 422 "value is not a permitted literal")

/-- `POST /add-location`: appends the encoded location to `LOCATIONS`,
rewrites `locations.json` with the whole collection, and returns an
empty object. -/
def add_location (s : ServerState) (loc : LocRec) :
    ServerState × HResult Unit :=
  let nl := s.locations ++ [loc]
  ({ s with locations := nl, locationsFile := nl }, .ok ())

/-- `GET /list-books`: returns the full `BOOKS` collection. -/
def list_books (s : ServerState) : ServerState × List StoredBook :=
  (s, s.books)

/-- Python list subscripting `l[i]` with an `int` index: nonnegative
indices address from the front, negative indices address from the back
(`l[i]` is `l[len(l) + i]`), and anything out of range raises
`IndexError`. -/
def pyGetItem {α : Type} (l : List α) (i : ℤ) : Except PyErr α :=
  if 0 ≤ i then
    match l.get? i.toNat with
    | some a => .ok a
    | none => .error .indexError
  else if 0 ≤ (l.length : ℤ) + i then
    match l.get? ((l.length : ℤ) + i).toNat with
    | some a => .ok a
    | none => .error .indexError
  else
    .error .indexError

/-- `GET /book_by_index/{index}`: if `index < len(BOOKS)` it evaluates
`BOOKS[index]` (Python subscripting), else it raises
`HTTPException(404, ...)` whose message embeds the index and the
collection length. -/
def book_by_index (s : ServerState) (index : ℤ) :
    ServerState × HResult StoredBook :=
  if index < (s.books.length : ℤ) then
    (s, match pyGetItem s.books index with
        | .ok b => .ok b
        | .error e => .pyException e)
  else
    (s, .httpError 404
      ("Book index " ++ toString index ++ " out of range (" ++
        toString s.books.length ++ ")."))

/-- The Python attribute access `book.book_id` where `book` is one of
the plain dicts stored in `BOOKS`: a dict's data keys are not
attributes, so the access raises `AttributeError` regardless of the
dict's contents. -/
def dictAttrBookId (_ : StoredBook) : Except PyErr String :=
  .error .attributeError

/-- The loop body of `get_book`: scan `BOOKS`, comparing
`book.book_id == book_id` for each stored dict, and raise
`HTTPException(404, ...)` when the scan falls through. -/
def get_book_scan : List StoredBook → String → HResult StoredBook
  | [], book_id =>
      .httpError 404 ("Book ID " ++ book_id ++ " not found in database.")
  | b :: rest, book_id =>
      match dictAttrBookId b with
      | .error e => .pyException e
      | .ok v => if v == book_id then .ok b else get_book_scan rest book_id

/-- `GET /get-book?book_id=`: linear scan over `BOOKS`. -/
def get_book (s : ServerState) (book_id : String) :
    ServerState × HResult StoredBook :=
  (s, get_book_scan s.books book_id)

/-- The sort relation of `sorted(LOCATIONS, key=lambda x: x["time"],
reverse=True)`: `a` may precede `b` iff `b`'s time is at most `a`'s. -/
def descTime (a b : LocRec) : Prop := b.time ≤ a.time

instance : DecidableRel descTime := fun a b => by
  unfold descTime; infer_instance

instance : IsTotal LocRec descTime :=
  ⟨fun a b => (le_total b.time a.time).imp id id⟩

instance : IsTrans LocRec descTime :=
  ⟨fun _ _ _ hab hbc => le_trans hbc hab⟩

/-- The per-record conversion of `get_locations`: copy the record and
replace `time` (milliseconds) by
`datetime.fromtimestamp(time / 1000.0)` (whose `isoformat()` the
endpoint returns). -/
def convertLoc (l : LocRec) : ConvLocation :=
  { time := DateTime.fromtimestamp (l.time / 1000), lat := l.lat, lng := l.lng }

/-- `GET /get-locations`: stable-sort `LOCATIONS` by `time` descending,
then convert each record's timestamp.  Stored records are copied, never
mutated. -/
def get_locations (s : ServerState) : ServerState × List ConvLocation :=
  (s, (s.locations.insertionSort descTime).map convertLoc)

end PDI

namespace PDI

/-! Concrete states and requests used by witnesses and counterexamples. -/

/-- The state of a fresh process with no persisted data. -/
def emptyState : ServerState :=
  { books := [], booksFile := [], locations := [], locationsFile := [] }

/-- A sample stored book. -/
def bookA : StoredBook :=
  { name := "A", genre := "fiction", price := 1, book_id := "id-a" }

/-- A second sample stored book. -/
def bookB : StoredBook :=
  { name := "B", genre := "non-fiction", price := 2, book_id := "id-b" }

/-- A state holding exactly two books. -/
def twoBookState : ServerState :=
  { books := [bookA, bookB], booksFile := [bookA, bookB],
    locations := [], locationsFile := [] }

/-- A state holding exactly one book. -/
def oneBookState : ServerState :=
  { books := [bookA], booksFile := [bookA], locations := [], locationsFile := [] }

/-- A valid add-book request that also sends a client-chosen book_id. -/
def duneReq : BookIn :=
  { name := "Dune", genre := "fiction", price := 1, book_id := some "deadbeef" }

/-- A valid add-book request with client-chosen book_id "beef". -/
def beefReq : BookIn :=
  { name := "Dune", genre := "fiction", price := 1, book_id := some "beef" }

/-- The spec's invalid-genre example request. -/
def mysteryReq : BookIn :=
  { name := "X", genre := "mystery", price := 1, book_id := none }

/-! Stability of the embedded sort. -/

/-- Filtering at one exact time value commutes with `orderedInsert`
under `descTime`: every record the insertion skips over has a strictly
larger time, so the inserted record lands in front of all records
sharing its time and disturbs no other fiber. -/
theorem filter_time_orderedInsert (t : ℚ) (a : LocRec) :
    ∀ l : List LocRec,
      (List.orderedInsert descTime a l).filter (fun x => x.time == t) =
        if a.time == t then a :: l.filter (fun x => x.time == t)
        else l.filter (fun x => x.time == t)
  | [] => by
    by_cases h : a.time = t <;> simp [List.orderedInsert, h]
  | b :: l => by
    by_cases hab : descTime a b
    · by_cases h : a.time = t <;>
        simp [List.orderedInsert, hab, h, List.filter_cons]
    · have ih := filter_time_orderedInsert t a l
      by_cases h : a.time = t
      · have hlt : a.time < b.time := not_le.mp hab
        have hbt : ¬ b.time = t := by rw [← h]; exact ne_of_gt hlt
        simp [List.orderedInsert, hab, h, hbt, List.filter_cons, ih]
      · simp [List.orderedInsert, hab, h, List.filter_cons, ih]

/-- The embedded stable sort preserves the relative order of records
sharing any fixed time value. -/
theorem filter_time_insertionSort (t : ℚ) :
    ∀ l : List LocRec,
      (List.insertionSort descTime l).filter (fun x => x.time == t) =
        l.filter (fun x => x.time == t)
  | [] => rfl
  | a :: l => by
    simp only [List.insertionSort]
    rw [filter_time_orderedInsert t a, filter_time_insertionSort t l]
    by_cases h : a.time = t <;> simp [h, List.filter_cons]

end PDI

namespace PDI

/-- C1: the claim says get_book(id) returns the stored book whose
book_id equals id and answers 404 (message naming id) when absent.  The
code iterates over plain dicts but compares `book.book_id`, an
attribute access that raises AttributeError on a dict, so with any
non-empty collection the first loop iteration raises (surfaced as HTTP
500) even when a matching book is stored. -/
theorem c1_get_book_attribute_error :
    (∃ b ∈ oneBookState.books, b.book_id = "id-a") ∧
      get_book oneBookState "id-a" =
        (oneBookState, .pyException .attributeError) :=
  ⟨⟨bookA, by simp [oneBookState], rfl⟩, rfl⟩

/-- C2: book_by_index returns the i-th stored book for 0 ≤ i < N, and
for i ≥ N fails with a 404 whose message embeds both the index and the
collection length N. -/
theorem c2_book_by_index_range (s : ServerState) (i : ℤ) :
    (0 ≤ i → i < (s.books.length : ℤ) →
      ∃ h : i.toNat < s.books.length,
        (book_by_index s i).2 = .ok (s.books.get ⟨i.toNat, h⟩)) ∧
    ((s.books.length : ℤ) ≤ i →
      ∃ d, (book_by_index s i).2 = .httpError 404 d ∧
        ∃ p q u, d = p ++ toString i ++ q ++ toString s.books.length ++ u) := by
  constructor
  · intro h0 hN
    have hlt : i.toNat < s.books.length := by omega
    have hpy : pyGetItem s.books i = .ok (s.books.get ⟨i.toNat, hlt⟩) := by
      unfold pyGetItem
      rw [if_pos h0, List.get?_eq_get hlt]
    refine ⟨hlt, ?_⟩
    unfold book_by_index
    rw [if_pos hN, hpy]
  · intro hge
    have hn : ¬ i < (s.books.length : ℤ) := not_lt.mpr hge
    refine ⟨_, ?_, "Book index ", " out of range (", ").", rfl⟩
    unfold book_by_index
    rw [if_neg hn]

/-- C2 witness: with two stored books, index 0 returns the first stored
book, and index 5 yields a 404 whose message embeds 5 and 2. -/
theorem c2_book_by_index_range_witness :
    (∃ h : (0 : ℤ).toNat < twoBookState.books.length,
      (book_by_index twoBookState 0).2 =
        .ok (twoBookState.books.get ⟨(0 : ℤ).toNat, h⟩)) ∧
    (∃ d, (book_by_index twoBookState 5).2 = .httpError 404 d ∧
      ∃ p q u, d = p ++ toString (5 : ℤ) ++ q ++
        toString twoBookState.books.length ++ u) :=
  ⟨(c2_book_by_index_range twoBookState 0).1 (by decide) (by decide),
   (c2_book_by_index_range twoBookState 5).2 (by decide)⟩

/-- C3: get_locations returns exactly the stored records (a permutation
of their converted forms), ordered by descending time, where the
conversion replaces the millisecond time by the instant time / 1000
seconds since the epoch and keeps lat and lng. -/
theorem c3_get_locations_sorted_conversion (s : ServerState) :
    ((get_locations s).2).Perm (s.locations.map convertLoc) ∧
    List.Sorted (fun a b : ConvLocation => b.time.seconds ≤ a.time.seconds)
      ((get_locations s).2) ∧
    ∀ l : LocRec, (convertLoc l).time.seconds = l.time / 1000 ∧
      (convertLoc l).lat = l.lat ∧ (convertLoc l).lng = l.lng := by
  refine ⟨?_, ?_, fun l => ⟨rfl, rfl, rfl⟩⟩
  · exact (List.perm_insertionSort descTime s.locations).map convertLoc
  · have hs := List.sorted_insertionSort descTime s.locations
    exact List.Pairwise.map convertLoc
      (fun a b hab => by
        unfold descTime at hab
        simp only [convertLoc, DateTime.fromtimestamp]
        linarith) hs

end PDI

namespace PDI

/-- C4 counterexample: the generator output is an arbitrary hex string,
and nothing stops it from coinciding with the string the client sent.
When `uuid4().hex` produces "deadbeef" and the client also sent
book_id "deadbeef", the returned book_id equals the client-supplied
one, refuting "never equal". -/
theorem c4_generated_id_counterexample :
    duneReq.book_id = some "deadbeef" ∧
      (add_book emptyState duneReq "deadbeef").2 = .ok "deadbeef" :=
  ⟨rfl, rfl⟩

/-- C4 amended: add_book discards any caller-supplied book_id, stores
and returns the freshly generated identifier, its behaviour is
independent of the caller-supplied book_id, and the returned identifier
differs from the caller-supplied one whenever the generated identifier
differs from it. -/
theorem c4_generated_id (s : ServerState) (req : BookIn) (gen : String)
    (h : validGenre req.genre = true) :
    (add_book s req gen).2 = .ok gen ∧
    (add_book s req gen).1.books =
      s.books ++ [{ name := req.name, genre := req.genre,
                    price := req.price, book_id := gen }] ∧
    (∀ x : Option String,
      add_book s { req with book_id := x } gen = add_book s req gen) ∧
    (∀ c : String, req.book_id = some c → gen ≠ c →
      (add_book s req gen).2 ≠ .ok c) := by
  refine ⟨by simp [add_book, h], by simp [add_book, h], ?_, ?_⟩
  · intro x
    cases req
    rfl
  · intro c _ hne heq
    have h2 : (add_book s req gen).2 = .ok gen := by simp [add_book, h]
    rw [h2] at heq
    injection heq with h3
    exact hne h3

/-- C4 witness: with the generator producing "f00d" and the client
sending "beef", the call returns "f00d", which is not "beef". -/
theorem c4_generated_id_witness :
    validGenre beefReq.genre = true ∧
    (add_book emptyState beefReq "f00d").2 = .ok "f00d" ∧
    (add_book emptyState beefReq "f00d").2 ≠ .ok "beef" :=
  ⟨by decide, (c4_generated_id emptyState beefReq "f00d" (by decide)).1,
   (c4_generated_id emptyState beefReq "f00d" (by decide)).2.2.2 "beef" rfl
     (by decide)⟩

/-- C5: a successful add_book appends the new record at the end of the
book collection and rewrites the backing file to exactly the current
collection, and add_location does the same for locations. -/
theorem c5_append_and_rewrite (s : ServerState) (req : BookIn) (gen : String)
    (loc : LocRec) (h : validGenre req.genre = true) :
    ((add_book s req gen).1.books =
        s.books ++ [{ name := req.name, genre := req.genre,
                      price := req.price, book_id := gen }] ∧
      (add_book s req gen).1.booksFile = (add_book s req gen).1.books) ∧
    ((add_location s loc).1.locations = s.locations ++ [loc] ∧
      (add_location s loc).1.locationsFile = (add_location s loc).1.locations) := by
  exact ⟨⟨by simp [add_book, h], by simp [add_book, h]⟩, rfl, rfl⟩

/-- C5 witness: the append-and-rewrite shape at a concrete state,
request, generated id, and location. -/
theorem c5_append_and_rewrite_witness :
    ((add_book emptyState beefReq "f00d").1.books =
        emptyState.books ++ [{ name := beefReq.name, genre := beefReq.genre,
                               price := beefReq.price, book_id := "f00d" }] ∧
      (add_book emptyState beefReq "f00d").1.booksFile =
        (add_book emptyState beefReq "f00d").1.books) ∧
    ((add_location emptyState ⟨1, 2, 3⟩).1.locations =
        emptyState.locations ++ [⟨1, 2, 3⟩] ∧
      (add_location emptyState ⟨1, 2, 3⟩).1.locationsFile =
        (add_location emptyState ⟨1, 2, 3⟩).1.locations) :=
  c5_append_and_rewrite emptyState beefReq "f00d" ⟨1, 2, 3⟩ (by decide)

/-- C6: a genre that is neither "fiction" nor "non-fiction" is rejected
with a 422 and the state (collections and files) is unchanged, while
the two allowed genres pass genre validation. -/
theorem c6_genre_validation (s : ServerState) (req : BookIn) (gen : String) :
    (req.genre ≠ "fiction" → req.genre ≠ "non-fiction" →
      (add_book s req gen).1 = s ∧
      ∃ d, (add_book s req gen).2 = .httpError 422 d) ∧
    (req.genre = "fiction" ∨ req.genre = "non-fiction" →
      validGenre req.genre = true) := by
  constructor
  · intro h1 h2
    have hv : validGenre req.genre = false := by
      simp [validGenre, h1, h2]
    exact ⟨by simp [add_book, hv], "value is not a permitted literal",
      by simp [add_book, hv]⟩
  · rintro (h | h) <;> simp [validGenre, h]

/-- C6 witness: the spec's genre "mystery" example is rejected without
a state change, and genre "fiction" passes validation. -/
theorem c6_genre_validation_witness :
    ((add_book emptyState mysteryReq "f00d").1 = emptyState ∧
      ∃ d, (add_book emptyState mysteryReq "f00d").2 = .httpError 422 d) ∧
    validGenre beefReq.genre = true :=
  ⟨(c6_genre_validation emptyState mysteryReq "f00d").1 (by decide) (by decide),
   (c6_genre_validation emptyState beefReq "f00d").2 (Or.inl rfl)⟩

/-- C7: list_books returns the whole collection in insertion order with
no pagination and no state change, and after a successful add_book the
listing contains the new book carrying exactly the identifier that
add_book returned. -/
theorem c7_list_books_full (s : ServerState) (req : BookIn) (gen : String) :
    (list_books s).2 = s.books ∧ (list_books s).1 = s ∧
    (validGenre req.genre = true →
      ∃ b ∈ (list_books (add_book s req gen).1).2,
        b.book_id = gen ∧ (add_book s req gen).2 = .ok b.book_id) := by
  refine ⟨rfl, rfl, fun h => ?_⟩
  refine ⟨{ name := req.name, genre := req.genre,
            price := req.price, book_id := gen }, ?_, rfl, ?_⟩
  · simp [list_books, add_book, h]
  · simp [add_book, h]

/-- C7 witness: after adding a book to the empty state with generated
id "f00d", the listing contains a book with book_id "f00d". -/
theorem c7_list_books_full_witness :
    (list_books emptyState).2 = emptyState.books ∧
    (list_books emptyState).1 = emptyState ∧
    ∃ b ∈ (list_books (add_book emptyState beefReq "f00d").1).2,
      b.book_id = "f00d" ∧
        (add_book emptyState beefReq "f00d").2 = .ok b.book_id :=
  ⟨(c7_list_books_full emptyState beefReq "f00d").1,
   (c7_list_books_full emptyState beefReq "f00d").2.1,
   (c7_list_books_full emptyState beefReq "f00d").2.2 (by decide)⟩

end PDI

namespace PDI

/-- C8: get_locations never mutates the stored records: the server
state (in particular the location collection, every record in it, and
their order) is identical before and after the call; the handler copies
each record before rewriting its time field. -/
theorem c8_get_locations_no_mutation (s : ServerState) :
    (get_locations s).1 = s ∧ (get_locations s).1.locations = s.locations :=
  ⟨rfl, rfl⟩

/-- C9: book_by_index reaches its NotFound branch only when the index
is at least the collection length; a negative index i with
-N ≤ i < 0 passes the guard and Python indexing returns the book at
position N + i, while i < -N raises IndexError outside the handled 404
path. -/
theorem c9_negative_index (s : ServerState) (i : ℤ) :
    (-(s.books.length : ℤ) ≤ i → i < 0 →
      ∃ h : ((s.books.length : ℤ) + i).toNat < s.books.length,
        (book_by_index s i).2 =
          .ok (s.books.get ⟨((s.books.length : ℤ) + i).toNat, h⟩)) ∧
    (i < -(s.books.length : ℤ) →
      (book_by_index s i).2 = .pyException .indexError) ∧
    (∀ st d, (book_by_index s i).2 = .httpError st d →
      (s.books.length : ℤ) ≤ i) := by
  refine ⟨?_, ?_, ?_⟩
  · intro h1 h2
    have hiN : i < (s.books.length : ℤ) := by omega
    have hnn : ¬ (0 : ℤ) ≤ i := by omega
    have hj : (0 : ℤ) ≤ (s.books.length : ℤ) + i := by omega
    have hlt : ((s.books.length : ℤ) + i).toNat < s.books.length := by omega
    have hpy : pyGetItem s.books i =
        .ok (s.books.get ⟨((s.books.length : ℤ) + i).toNat, hlt⟩) := by
      unfold pyGetItem
      rw [if_neg hnn, if_pos hj, List.get?_eq_get hlt]
    refine ⟨hlt, ?_⟩
    unfold book_by_index
    rw [if_pos hiN, hpy]
  · intro h1
    have hiN : i < (s.books.length : ℤ) := by omega
    have hnn : ¬ (0 : ℤ) ≤ i := by omega
    have hj : ¬ (0 : ℤ) ≤ (s.books.length : ℤ) + i := by omega
    have hpy : pyGetItem s.books i = .error .indexError := by
      unfold pyGetItem
      rw [if_neg hnn, if_neg hj]
    unfold book_by_index
    rw [if_pos hiN, hpy]
  · intro st d heq
    by_contra hn
    push_neg at hn
    unfold book_by_index at heq
    rw [if_pos hn] at heq
    rcases hpy : pyGetItem s.books i with e | b <;>
      rw [hpy] at heq <;> simp at heq

/-- C9 witness: with two stored books, index -1 returns the book at
position 1, index -5 raises IndexError, and the 404 answer at index 5
certifies 2 ≤ 5. -/
theorem c9_negative_index_witness :
    (∃ h : ((twoBookState.books.length : ℤ) + (-1)).toNat <
        twoBookState.books.length,
      (book_by_index twoBookState (-1)).2 =
        .ok (twoBookState.books.get
          ⟨((twoBookState.books.length : ℤ) + (-1)).toNat, h⟩)) ∧
    (book_by_index twoBookState (-5)).2 = .pyException .indexError ∧
    (twoBookState.books.length : ℤ) ≤ 5 :=
  ⟨(c9_negative_index twoBookState (-1)).1 (by decide) (by decide),
   (c9_negative_index twoBookState (-5)).2.1 (by decide),
   (c9_negative_index twoBookState 5).2.2 404
     "Book index 5 out of range (2)." (by decide)⟩

/-- C10: the descending sort in get_locations is stable: filtering the
output at any fixed time value yields exactly the stored records with
that time, converted, in their original insertion order. -/
theorem c10_get_locations_stable (s : ServerState) (t : ℚ) :
    ((get_locations s).2).filter
        (fun c => c.time == DateTime.fromtimestamp (t / 1000)) =
      (s.locations.filter (fun l => l.time == t)).map convertLoc := by
  show ((List.insertionSort descTime s.locations).map convertLoc).filter
      (fun c => c.time == DateTime.fromtimestamp (t / 1000)) = _
  rw [List.filter_map]
  have hpred : ∀ x ∈ List.insertionSort descTime s.locations,
      ((fun c : ConvLocation =>
          c.time == DateTime.fromtimestamp (t / 1000)) ∘ convertLoc) x =
        (fun l : LocRec => l.time == t) x := by
    intro x _
    show ((convertLoc x).time == DateTime.fromtimestamp (t / 1000)) =
      (x.time == t)
    rw [Bool.eq_iff_iff]
    simp only [beq_iff_eq, convertLoc, DateTime.fromtimestamp,
      DateTime.mk.injEq]
    constructor
    · intro hq; linarith
    · intro hq; rw [hq]
  rw [List.filter_congr hpred, filter_time_insertionSort t s.locations]

end PDI
